import Mathlib

/-!
Verification of the knack-openapi-generator transformation logic.

The definitions below are a shallow embedding of the TypeScript source:
* `src/utils/fieldTypeMapper.ts`
* `src/utils/viewSecurityAnalyzer.ts`
* `src/utils/pageHelpers.ts`
* `src/generators/viewsToComponents.ts`
* `src/generators/objectsToPaths.ts`
* the views-to-paths and objects-to-components generators

JavaScript objects with string keys are modelled as association lists
(`List (String × α)`) where assignment to an existing key replaces the
value in place (`upsert`).  JavaScript `Set` insertion order is modelled
by `addKey`.  Optional / nullable TypeScript properties are modelled with
`Option`; JavaScript string truthiness (both `undefined`/`null` and the
empty string are falsy) is modelled by `truthyStr`.
-/

/-- JS truthiness for an optional string: `undefined`, `null` and `""` are falsy. -/
def truthyStr (o : Option String) : Option String :=
  match o with
  | some s => if s = "" then none else some s
  | none => none

/-- Does the character list `hay` start with `needle`? -/
def charsStartWith : List Char → List Char → Bool
  | [], _ => true
  | _ :: _, [] => false
  | a :: as, b :: bs => a == b && charsStartWith as bs

/-- Does the character list `hay` contain `needle` as a contiguous run?  -/
def charsContain (hay needle : List Char) : Bool :=
  match hay with
  | [] => needle.isEmpty
  | _ :: t => charsStartWith needle hay || charsContain t needle

/-- JS `String.prototype.includes`. -/
def strContains (hay needle : String) : Bool :=
  charsContain hay.data needle.data

/-- JS `String.prototype.toLowerCase`, modelled as ASCII lowering of each
character (the keyword lists it feeds are ASCII). -/
def strToLower (s : String) : String :=
  String.mk (s.data.map Char.toLower)

/-- JS object assignment `m[k] = v`: replaces the value in place when the key
exists, otherwise appends the new binding. -/
def upsert {α : Type} (m : List (String × α)) (k : String) (v : α) :
    List (String × α) :=
  match m with
  | [] => [(k, v)]
  | (k', v') :: rest => if k' = k then (k, v) :: rest else (k', v') :: upsert rest k v

/-- JS object property read `m[k]`. -/
def lookupKey {α : Type} (m : List (String × α)) (k : String) : Option α :=
  (m.find? (fun p => p.1 == k)).map (fun p => p.2)

/-- JS `Set.prototype.add`: keeps insertion order, collapses duplicates. -/
def addKey (acc : List String) (k : String) : List String :=
  if acc.contains k then acc else acc ++ [k]

/-- Add an optional string to the accumulator when it is truthy. -/
def addTruthy (acc : List String) (o : Option String) : List String :=
  match truthyStr o with
  | some k => addKey acc k
  | none => acc

/-! ### Input data model (`src/types/knackSchema.ts`) -/

/-- `KnackField.relationship`: reference to a connected object. -/
structure KnackRelationship where
  object : String
deriving DecidableEq

/-- The parts of a field `format` the generator reads (multiple choice). -/
structure KnackFieldFormat where
  options : Option (List String)
  defaultVal : Option String
deriving DecidableEq

/-- One column definition of an object. -/
structure KnackField where
  key : String
  name : String
  type : String
  required : Bool
  format : Option KnackFieldFormat
  relationship : Option KnackRelationship
deriving DecidableEq

/-- Singular/plural inflections of an object name. -/
structure KnackInflections where
  singular : String
  plural : String
deriving DecidableEq

/-- A data table definition. -/
structure KnackObject where
  key : String
  name : String
  inflections : KnackInflections
  fields : List KnackField
deriving DecidableEq

/-- A view's `source` object reference. -/
structure KnackSource where
  object : Option String
  authenticated_user : Option Bool
deriving DecidableEq

/-- A field reference `{ key }` nested inside columns and inputs. -/
structure KnackFieldRef where
  key : Option String
deriving DecidableEq

/-- A field entry of a details-view column group (`KnackColumnField`). -/
structure KnackColumnField where
  key : Option String
deriving DecidableEq

/-- A field entry of a form/details/search group column; details reads `key`,
search filter extraction reads `field`. -/
structure KnackGroupField where
  key : Option String
  field : Option String
deriving DecidableEq

/-- A form input: the key may sit directly on the input or under `field.key`. -/
structure KnackViewInput where
  key : Option String
  field : Option KnackFieldRef
deriving DecidableEq

/-- One entry of a details-view column group's `columns` array: either a single
field or an array of fields (`Array<Array<KnackColumnField> | KnackColumnField>`). -/
inductive KnackColumnData where
  | single (f : KnackColumnField)
  | arr (fs : List KnackColumnField)
deriving DecidableEq

/-- A details-view column group (`KnackColumnGroup`). -/
structure KnackColumnGroup where
  columns : Option (List KnackColumnData)
deriving DecidableEq

/-- A table/search-results/details column (`KnackViewColumn`). -/
structure KnackViewColumn where
  type : String
  field : Option KnackFieldRef
  groups : Option (List KnackColumnGroup)
deriving DecidableEq

/-- A column of a form/details/search group. -/
structure KnackGroupColumn where
  inputs : Option (List KnackViewInput)
  fields : Option (List KnackGroupField)
deriving DecidableEq

/-- A group of a form/details/search view. -/
structure KnackViewGroup where
  columns : Option (List KnackGroupColumn)
deriving DecidableEq

/-- The `results` block of a search view. -/
structure KnackResults where
  columns : Option (List KnackViewColumn)
deriving DecidableEq

/-- A UI component inside a scene. -/
structure KnackView where
  key : String
  name : String
  type : String
  title : Option String
  description : Option String
  source : Option KnackSource
  allowed_profiles : Option (List String)
  limit_profile_access : Option Bool
  action : Option String
  columns : Option (List KnackViewColumn)
  groups : Option (List KnackViewGroup)
  results : Option KnackResults
deriving DecidableEq

/-- A UI page. -/
structure KnackScene where
  key : String
  name : String
  slug : String
  parent : Option String
  type : Option String
  allowed_profiles : Option (List String)
  limit_profile_access : Option Bool
  authenticated : Option Bool
  views : List KnackView
deriving DecidableEq

/-- The application container. -/
structure KnackApplication where
  name : String
  objects : List KnackObject
  scenes : List KnackScene
deriving DecidableEq

/-- The root input document. -/
structure KnackSchema where
  application : KnackApplication
deriving DecidableEq

/-! ### Output data model (the parts of `openapi3-ts` the generator produces) -/

/-- The schema fragment produced by `mapFieldTypeToSchema`.  `type` is optional
because the TS base schema carries no `type` until a branch adds one; `itemsType`
records the `items.type` of the `user_roles` array schema. -/
structure FieldSchema where
  title : String
  description : String
  type : Option String
  format : Option String
  maxLength : Option Nat
  enum : Option (List String)
  defaultVal : Option String
  readOnly : Option Bool
  itemsType : Option String
deriving DecidableEq

/-- An object-shaped component schema (object schemas and view schemas). -/
structure ObjSchema where
  type : String
  title : String
  description : String
  properties : List (String × FieldSchema)
  required : Option (List String)
deriving DecidableEq

/-- The components container (only the `schemas` map is generated here). -/
structure Components where
  schemas : List (String × ObjSchema)
deriving DecidableEq

/-! ### Field type mapper (`src/utils/fieldTypeMapper.ts`) -/

/-- The base schema fragment shared by every branch of the mapper. -/
def baseFieldSchema (field : KnackField) : FieldSchema :=
  { title := field.name
    description := field.name ++ " field"
    type := none
    format := none
    maxLength := none
    enum := none
    defaultVal := none
    readOnly := none
    itemsType := none }

/-- `mapFieldTypeToSchema`: maps a Knack field type to an OpenAPI schema. -/
def mapFieldTypeToSchema (field : KnackField) : FieldSchema :=
  let base := baseFieldSchema field
  match field.type with
  | "short_text" | "name" | "email" | "password" | "paragraph_text" | "phone" | "address" =>
    { base with
        type := some "string"
        format := if field.type = "email" then some "email" else none
        maxLength := if field.type = "paragraph_text" then some 100000 else none }
  | "number" => { base with type := some "number" }
  | "auto_increment" => { base with type := some "integer", readOnly := some true }
  | "currency" => { base with type := some "number", format := some "float" }
  | "date_time" => { base with type := some "string", format := some "date-time" }
  | "multiple_choice" =>
    match field.format with
    | some fmt =>
      match fmt.options with
      | some opts =>
        { base with
            type := some "string"
            enum := some opts
            defaultVal := truthyStr fmt.defaultVal }
      | none => { base with type := some "string" }
    | none => { base with type := some "string" }
  | "boolean" => { base with type := some "boolean" }
  | "connection" =>
    match field.relationship with
    | some _ =>
      { base with
          type := some "string"
          description := "Reference to a " ++ field.name ++ " object"
          format := some "uuid" }
    | none => { base with type := some "string" }
  | "file" | "image" =>
    { base with
        type := some "string"
        format := some "uri"
        description := "URL to " ++ field.type }
  | "signature" =>
    { base with
        type := some "string"
        format := some "uri"
        description := "URL to signature image" }
  | "user_roles" =>
    { base with
        type := some "array"
        itemsType := some "string"
        description := "List of user roles" }
  | "equation" =>
    { base with
        type := some "number"
        readOnly := some true
        description := "Calculated field value" }
  | "timer" =>
    { base with
        type := some "number"
        description := "Timer value in seconds" }
  | _ =>
    { base with
        type := some "string"
        description := "Unknown field type: " ++ field.type }

/-- `shouldIncludeField`: the source includes every field. -/
def shouldIncludeField (_field : KnackField) : Bool :=
  true

/-- The field types handled by a named branch of the mapper's switch. -/
def recognizedFieldTypes : List String :=
  ["short_text", "name", "email", "password", "paragraph_text", "phone", "address",
   "number", "auto_increment", "currency", "date_time", "multiple_choice", "boolean",
   "connection", "file", "image", "signature", "user_roles", "equation", "timer"]

/-! ### Security classifier (`src/utils/viewSecurityAnalyzer.ts`) -/

/-- Security verdicts for views. -/
inductive ViewSecurity where
  | public
  | authenticated
deriving DecidableEq

/-- The keyword list shared by the view-level and scene-level checks. -/
def securityKeywords : List String :=
  ["profile", "account", "dashboard", "admin", "secure", "private"]

/-- `checkViewSecurity`: direct authentication requirements of a view;
`none` when inconclusive. -/
def checkViewSecurity (view : KnackView) : Option ViewSecurity :=
  if view.type = "login" ∨ view.type = "register" ∨ view.type = "password_reset" then
    some .public
  else if (match view.allowed_profiles with
           | some l => decide (l.length > 0)
           | none => false) then
    some .authenticated
  else if view.limit_profile_access = some true then
    some .authenticated
  else if (match view.source with
           | some src => src.authenticated_user == some true
           | none => false) then
    some .authenticated
  else
    let viewText :=
      strToLower (view.name ++ " " ++ view.title.getD "" ++ " " ++ view.description.getD "")
    if securityKeywords.any (fun kw => strContains viewText kw) then
      some .authenticated
    else
      none

/-- `checkSceneSecurity`: direct authentication requirements of a scene;
`none` when inconclusive. -/
def checkSceneSecurity (scene : KnackScene) : Option ViewSecurity :=
  if scene.authenticated = some true then
    some .authenticated
  else if scene.type = some "authentication" then
    some .public
  else if (match scene.allowed_profiles with
           | some l => decide (l.length > 0)
           | none => false) then
    some .authenticated
  else if scene.limit_profile_access = some true then
    some .authenticated
  else
    let sceneNameLower := strToLower scene.name
    if securityKeywords.any (fun kw => strContains sceneNameLower kw) then
      some .authenticated
    else
      none

/-- The recursion of `checkParentScenesSecurity`, made total with a fuel
parameter.  The source's recursion stops by itself because each step adds an
unvisited parent slug to `visited`; `checkParentScenesSecurityAux_agree` below
shows the result does not depend on the fuel once it exceeds the number of
slugs still visitable, which is the termination argument. -/
def checkParentScenesSecurityAux :
    Nat → KnackScene → KnackSchema → List String → Option ViewSecurity
  | 0, _, _, _ => none
  | fuel + 1, scene, schema, visited =>
    match truthyStr scene.parent with
    | none => none
    | some p =>
      if visited.contains p then none
      else
        match schema.application.scenes.find? (fun s => s.slug == p) with
        | none => none
        | some parentScene =>
          match checkSceneSecurity parentScene with
          | some sec => some sec
          | none => checkParentScenesSecurityAux fuel parentScene schema (p :: visited)

/-- `checkParentScenesSecurity`: walks the parent-slug chain with a fresh
visited set.  The chosen fuel is one more than the scene count, which is more
than the walk can ever use. -/
def checkParentScenesSecurity (scene : KnackScene) (schema : KnackSchema) :
    Option ViewSecurity :=
  checkParentScenesSecurityAux (schema.application.scenes.length + 1) scene schema []

/-- `determineViewSecurity`: first decisive rule wins. -/
def determineViewSecurity (view : KnackView) (scene : KnackScene)
    (schema : KnackSchema) : ViewSecurity :=
  match checkViewSecurity view with
  | some s => s
  | none =>
    match checkSceneSecurity scene with
    | some s => s
    | none =>
      match checkParentScenesSecurity scene schema with
      | some s => s
      | none =>
        if ["landing", "menu", "search", "rich_text"].contains view.type then
          .public
        else
          .authenticated

/-! ### Page-hierarchy resolver (`src/utils/pageHelpers.ts`) -/

/-- `isChildPage`: `Boolean(scene.parent)` — both a missing parent and an empty
parent string are falsy. -/
def isChildPage (scene : KnackScene) : Bool :=
  (truthyStr scene.parent).isSome

/-- `isViewInChildPage`: a view is in a child page iff its scene is one. -/
def isViewInChildPage (_view : KnackView) (scene : KnackScene) : Bool :=
  isChildPage scene

/-- `getSceneObjectKey`: source object of the first view that has one. -/
def getSceneObjectKey (scene : KnackScene) : Option String :=
  match scene.views.find? (fun v => (truthyStr (v.source.bind (fun s => s.object))).isSome) with
  | some v => v.source.bind (fun s => s.object)
  | none => none

/-- `getParentParamSlug`: parent-record parameter name for a child page. -/
def getParentParamSlug (scene : KnackScene) (schema : KnackSchema) : Option String :=
  if isChildPage scene = false then none
  else
    match scene.parent with
    | none => none
    | some p =>
      match schema.application.scenes.find? (fun s => s.slug == p) with
      | some parentScene =>
        match getSceneObjectKey parentScene with
        | some _ => some (parentScene.slug ++ "_id")
        | none => some (p ++ "_id")
      | none => some (p ++ "_id")

/-! ### View field extraction and view components (`src/generators/viewsToComponents.ts`) -/

/-- The truthy source-object reference of a view (`view.source?.object`). -/
def viewSourceObject (view : KnackView) : Option String :=
  truthyStr (view.source.bind (fun s => s.object))

/-- `extractFieldKeysFromView`: the field keys a view surfaces, per view type. -/
def extractFieldKeysFromView (view : KnackView) : List String :=
  if view.type = "table" then
    match view.columns with
    | some cols =>
      cols.foldl (fun acc c =>
        if c.type = "field" then addTruthy acc (c.field.bind (fun f => f.key)) else acc) []
    | none => []
  else if view.type = "form" then
    match view.groups with
    | some gs =>
      gs.foldl (fun acc g =>
        (g.columns.getD []).foldl (fun acc c =>
          (c.inputs.getD []).foldl (fun acc inp =>
            match truthyStr inp.key with
            | some k => addKey acc k
            | none => addTruthy acc (inp.field.bind (fun f => f.key))) acc) acc) []
    | none => []
  else if view.type = "details" then
    let afterGroups :=
      match view.groups with
      | some gs =>
        gs.foldl (fun acc g =>
          (g.columns.getD []).foldl (fun acc c =>
            (c.fields.getD []).foldl (fun acc f => addTruthy acc f.key) acc) acc) []
      | none => []
    match view.columns with
    | some cols =>
      cols.foldl (fun acc c =>
        match c.groups with
        | some cgs =>
          cgs.foldl (fun acc gg =>
            (gg.columns.getD []).foldl (fun acc cd =>
              match cd with
              | .arr fs => fs.foldl (fun acc f => addTruthy acc f.key) acc
              | .single f => addTruthy acc f.key) acc) acc
        | none => acc) afterGroups
    | none => afterGroups
  else if view.type = "search" then
    let afterResults :=
      match view.results.bind (fun r => r.columns) with
      | some cols =>
        cols.foldl (fun acc c =>
          if c.type = "field" then addTruthy acc (c.field.bind (fun f => f.key)) else acc) []
      | none => []
    match view.groups with
    | some gs =>
      gs.foldl (fun acc g =>
        (g.columns.getD []).foldl (fun acc c =>
          (c.fields.getD []).foldl (fun acc f =>
            match truthyStr f.field with
            | some fk => if fk = "keyword_search" then acc else addKey acc fk
            | none => acc) acc) acc) afterResults
    | none => afterResults
  else
    []

/-- `findFieldByKey`: direct lookup in the source object, then a single hop
through the first connection-typed field that carries a relationship target. -/
def findFieldByKey (fieldKey : String) (sourceObject : KnackObject)
    (schema : KnackSchema) : Option KnackField :=
  match sourceObject.fields.find? (fun f => f.key == fieldKey) with
  | some directField => some directField
  | none =>
    match sourceObject.fields.find? (fun f =>
        f.type == "connection" &&
        (truthyStr (f.relationship.map (fun r => r.object))).isSome) with
    | none => none
    | some connectionField =>
      match truthyStr (connectionField.relationship.map (fun r => r.object)) with
      | none => none
      | some connKey =>
        match schema.application.objects.find? (fun o => o.key == connKey) with
        | none => none
        | some connectedObject =>
          match connectedObject.fields.find? (fun f => f.key == fieldKey) with
          | some connectedField => some connectedField
          | none => none

/-- `generateViewSchema`: the component schema of one view, or `none` when the
source object does not resolve or no usable field keys are found. -/
def generateViewSchema (view : KnackView) (scene : KnackScene)
    (schema : KnackSchema) : Option ObjSchema :=
  match view.source.bind (fun s => s.object) with
  | none => none
  | some srcKey =>
    match schema.application.objects.find? (fun o => o.key == srcKey) with
    | none => none
    | some sourceObject =>
      let fieldKeys := extractFieldKeysFromView view
      if fieldKeys.length = 0 then none
      else
        let st := fieldKeys.foldl
          (fun (st : List (String × FieldSchema) × List String) fk =>
            match findFieldByKey fk sourceObject schema with
            | some f =>
              if shouldIncludeField f then
                (upsert st.1 f.key (mapFieldTypeToSchema f),
                 if f.required then st.2 ++ [f.key] else st.2)
              else st
            | none => st)
          ([], [])
        if st.1.length = 0 then none
        else
          some
            { type := "object"
              title := view.name ++ " in " ++ scene.name
              description := "Schema for " ++ view.name ++ " view in " ++ scene.name
              properties := st.1
              required := if st.2.length = 0 then none else some st.2 }

/-- `generateViewComponents`: schema components for every view with a truthy
source-object reference. -/
def generateViewComponents (schema : KnackSchema) : Components :=
  { schemas :=
      schema.application.scenes.foldl (fun acc scene =>
        scene.views.foldl (fun acc view =>
          match viewSourceObject view with
          | none => acc
          | some _ =>
            match generateViewSchema view scene schema with
            | some vs => upsert acc ("view_" ++ scene.slug ++ "_" ++ view.key) vs
            | none => acc) acc) [] }

/-! ### Objects to components (`src/generators/objectsToComponents.ts`) -/

/-- `objectToSchema`: one object becomes one named component schema. -/
def objectToSchema (obj : KnackObject) : String × ObjSchema :=
  let st := obj.fields.foldl
    (fun (st : List (String × FieldSchema) × List String) f =>
      if shouldIncludeField f then
        (upsert st.1 f.key (mapFieldTypeToSchema f),
         if f.required then st.2 ++ [f.key] else st.2)
      else st)
    ([], [])
  (obj.key,
   { type := "object"
     title := obj.name
     description := obj.inflections.singular ++ " object"
     properties := st.1
     required := if st.2.length = 0 then none else some st.2 })

/-- `generateComponents`: component schemas for every object. -/
def generateComponents (schema : KnackSchema) : Components :=
  { schemas :=
      schema.application.objects.foldl (fun acc obj =>
        let s := objectToSchema obj
        upsert acc s.1 s.2) [] }

/-! ### Paths and operations output model -/

/-- An operation parameter: a `$ref` to a shared parameter, or an inline
parameter with name, location, required flag, schema type and description. -/
inductive ParamObj where
  | ref (r : String)
  | inline (name : String) (loc : String) (required : Bool)
      (schemaType : String) (description : String)
deriving DecidableEq

/-- A response content schema: a `$ref`, the paginated wrapper around a `$ref`
(`createPaginatedResponseSchema`), or the inline `{ id }` object returned by
form submissions. -/
inductive RespSchema where
  | ref (r : String)
  | paginated (itemRef : String)
  | idObject (idDescription : String)
deriving DecidableEq

/-- A response stub: description plus optional content schema. -/
structure RespObj where
  description : String
  schema : Option RespSchema
deriving DecidableEq

/-- A request body: description, required flag, content schema `$ref`. -/
structure ReqBody where
  description : String
  required : Bool
  schemaRef : String
deriving DecidableEq

/-- An operation object.  `security` lists security requirement objects, each
being the list of scheme names it references. -/
structure Operation where
  summary : String
  description : String
  operationId : String
  tags : List String
  parameters : List ParamObj
  requestBody : Option ReqBody
  responses : List (String × RespObj)
  security : List (List String)
deriving DecidableEq

/-- The HTTP methods of a path item. -/
structure PathItem where
  get : Option Operation
  put : Option Operation
  post : Option Operation
  delete : Option Operation
deriving DecidableEq

/-- A path item holding exactly one operation under the given method. -/
def singletonItem (method : String) (op : Operation) : PathItem :=
  { get := if method = "get" then some op else none
    put := if method = "put" then some op else none
    post := if method = "post" then some op else none
    delete := if method = "delete" then some op else none }

/-! ### View paths generator (`src/generators/viewsToPaths.ts`) -/

/-- `formatNameForOperationId`: strip every non-alphanumeric character. -/
def formatNameForOperationId (name : String) : String :=
  String.mk (name.data.filter Char.isAlphanum)

/-- `createParentIdParameter`: required query parameter for the parent record. -/
def createParentIdParameter (parentParamSlug : String) (sceneName : String) :
    ParamObj :=
  .inline parentParamSlug "query" true "string"
    ("ID of the parent record for this " ++ sceneName ++ " view")

/-- The tag of a view operation: the resolved source object's name, or a
fallback naming the scene. -/
def viewOperationTag (view : KnackView) (scene : KnackScene)
    (schema : KnackSchema) : String :=
  match view.source.bind (fun s => s.object) with
  | some k =>
    match schema.application.objects.find? (fun o => o.key == k) with
    | some sourceObject => sourceObject.name
    | none => "View: " ++ scene.name
  | none => "View: " ++ scene.name

/-- The parent-record parameter prefix of a view operation's parameter list
(`isChildPageView && parentParamSlug ? [createParentIdParameter(...)] : []`). -/
def parentParamList (isChildPageView : Bool) (parentParamSlug : Option String)
    (sceneName : String) : List ParamObj :=
  match (if isChildPageView then truthyStr parentParamSlug else none) with
  | some s => [createParentIdParameter s sceneName]
  | none => []

/-- `generateViewGetOperation`. -/
def generateViewGetOperation (view : KnackView) (scene : KnackScene)
    (schema : KnackSchema) (security : ViewSecurity) (viewSchemaRef : String)
    (isChildPageView : Bool) (parentParamSlug : Option String) : Operation :=
  let isDetailsView := view.type = "details"
  let tagName := viewOperationTag view scene schema
  let operation : Operation :=
    { summary := "Access " ++ view.name ++ " records"
      description :=
        "Retrieves records from " ++ view.name ++ " view in " ++ scene.name ++ ". " ++
          (if isDetailsView then "Returns a single record."
           else if isChildPageView then "Returns a list of records filtered by the parent ID."
           else "Returns a list of records.")
      operationId := view.key ++ "_access" ++ formatNameForOperationId view.name
      tags := [tagName]
      parameters :=
        parentParamList isChildPageView parentParamSlug scene.name ++
          (if isDetailsView then []
           else [.ref "#/components/parameters/page",
                 .ref "#/components/parameters/rowsPerPage"])
      requestBody := none
      responses :=
        [("200",
          { description := "Records from " ++ view.name
            schema := some (if isDetailsView then .ref viewSchemaRef
                            else .paginated viewSchemaRef) })]
      security := [["apiKey"]] }
  if security = .authenticated then
    { operation with
        responses := operation.responses ++
          [("401", { description := "Unauthorized - Authentication required", schema := none })]
        security := [["apiKey", "viewAuth"]] }
  else
    operation

/-- `generateViewPostOperation` (create form). -/
def generateViewPostOperation (view : KnackView) (scene : KnackScene)
    (schema : KnackSchema) (security : ViewSecurity) (viewSchemaRef : String)
    (isChildPageView : Bool) (parentParamSlug : Option String) : Operation :=
  let tagName := viewOperationTag view scene schema
  let operation : Operation :=
    { summary := "Submit " ++ view.name
      description := "Submits data to " ++ view.name ++ " form in " ++ scene.name
      operationId := view.key ++ "_submit" ++ formatNameForOperationId view.name
      tags := [tagName]
      parameters := parentParamList isChildPageView parentParamSlug scene.name
      requestBody := some
        { description := "Data to submit to " ++ view.name
          required := true
          schemaRef := viewSchemaRef }
      responses :=
        [("201",
          { description := "Successfully submitted"
            schema := some (.idObject "ID of the created record") }),
         ("400", { description := "Invalid input", schema := none })]
      security := [["apiKey"]] }
  if security = .authenticated then
    { operation with
        responses := operation.responses ++
          [("401", { description := "Unauthorized - Authentication required", schema := none })]
        security := [["apiKey", "viewAuth"]] }
  else
    operation

/-- `generateViewPutOperation` (update form). -/
def generateViewPutOperation (view : KnackView) (scene : KnackScene)
    (schema : KnackSchema) (security : ViewSecurity) (viewSchemaRef : String)
    (isChildPageView : Bool) (parentParamSlug : Option String) : Operation :=
  let tagName := viewOperationTag view scene schema
  let operation : Operation :=
    { summary := "Update " ++ view.name
      description := "Updates data through " ++ view.name ++ " form in " ++ scene.name
      operationId := view.key ++ "_update" ++ formatNameForOperationId view.name
      tags := [tagName]
      parameters := parentParamList isChildPageView parentParamSlug scene.name
      requestBody := some
        { description := "Data to update in " ++ view.name
          required := true
          schemaRef := viewSchemaRef }
      responses :=
        [("200",
          { description := "Successfully updated"
            schema := some (.idObject "ID of the updated record") }),
         ("400", { description := "Invalid input", schema := none })]
      security := [["apiKey"]] }
  if security = .authenticated then
    { operation with
        responses := operation.responses ++
          [("401", { description := "Unauthorized - Authentication required", schema := none })]
        security := [["apiKey", "viewAuth"]] }
  else
    operation

/-- `generatePathsForView`: a single records path carrying exactly one
operation — PUT or POST for form views, GET for every other view type. -/
def generatePathsForView (view : KnackView) (scene : KnackScene)
    (schema : KnackSchema) : List (String × PathItem) :=
  match viewSourceObject view with
  | none => []
  | some _ =>
    let isChildPageView := isViewInChildPage view scene
    let parentParamSlug :=
      if isChildPageView then getParentParamSlug scene schema else none
    let basePath := "/scenes/" ++ scene.key ++ "/views/" ++ view.key
    let recordsPath := basePath ++ "/records"
    let security := determineViewSecurity view scene schema
    let viewSchemaRef := "#/components/schemas/view_" ++ scene.slug ++ "_" ++ view.key
    if view.type = "form" then
      if view.action == some "update" then
        [(recordsPath,
          singletonItem "put"
            (generateViewPutOperation view scene schema security viewSchemaRef
              isChildPageView parentParamSlug))]
      else
        [(recordsPath,
          singletonItem "post"
            (generateViewPostOperation view scene schema security viewSchemaRef
              isChildPageView parentParamSlug))]
    else
      [(recordsPath,
        singletonItem "get"
          (generateViewGetOperation view scene schema security viewSchemaRef
            isChildPageView parentParamSlug))]

/-- `generateViewPaths`: merge the per-view paths over all scenes and views. -/
def generateViewPaths (schema : KnackSchema) : List (String × PathItem) :=
  schema.application.scenes.foldl (fun acc scene =>
    scene.views.foldl (fun acc view =>
      match viewSourceObject view with
      | none => acc
      | some _ =>
        (generatePathsForView view scene schema).foldl
          (fun acc p => upsert acc p.1 p.2) acc) acc) []

/-! ### Object paths generator (`src/generators/objectsToPaths.ts`) -/

/-- `formatObjectNameForOperationId`: strip every non-alphanumeric character. -/
def formatObjectNameForOperationId (name : String) : String :=
  String.mk (name.data.filter Char.isAlphanum)

/-- `generateUnauthorizedResponse`: the standard 401 stub for object paths. -/
def generateUnauthorizedResponse : RespObj :=
  { description := "Unauthorized - Missing or invalid API key", schema := none }

/-- The `{id}` path parameter used by get/update/delete record operations. -/
def idPathParameter (singular : String) (verb : String) : ParamObj :=
  .inline "id" "path" true "string"
    ("ID of the " ++ singular ++ " to " ++ verb)

/-- `generateObjectSchemaOperation`: GET of the object's structure. -/
def generateObjectSchemaOperation (obj : KnackObject) : Operation :=
  { summary := "Get " ++ obj.inflections.singular ++ " Structure"
    description := "Retrieves the structure definition for " ++ obj.inflections.singular
    operationId := obj.key ++ "_getStructure" ++ formatObjectNameForOperationId obj.name
    tags := [obj.name, "Builder"]
    parameters := []
    requestBody := none
    responses :=
      [("200",
        { description := "The structure definition for " ++ obj.inflections.singular
          schema := some (.ref ("#/components/schemas/" ++ obj.key)) }),
       ("401", generateUnauthorizedResponse)]
    security := [["apiKey"]] }

/-- `generateListOperation`: list records. -/
def generateListOperation (obj : KnackObject) : Operation :=
  { summary := "List " ++ obj.inflections.plural
    description := "Retrieves a list of " ++ obj.inflections.plural
    operationId := obj.key ++ "_list" ++ formatObjectNameForOperationId obj.name
    tags := [obj.name]
    parameters :=
      [.ref "#/components/parameters/page",
       .ref "#/components/parameters/rowsPerPage",
       .ref "#/components/parameters/sortField",
       .ref "#/components/parameters/sortOrder"]
    requestBody := none
    responses :=
      [("200",
        { description := "A list of " ++ obj.inflections.plural
          schema := some (.paginated ("#/components/schemas/" ++ obj.key)) }),
       ("401", generateUnauthorizedResponse)]
    security := [["apiKey", "apiKeyRest"]] }

/-- `generateGetOperation`: get one record by id. -/
def generateGetOperation (obj : KnackObject) : Operation :=
  { summary := "Get " ++ obj.inflections.singular
    description := "Retrieves a specific " ++ obj.inflections.singular ++ " by ID"
    operationId := obj.key ++ "_get" ++ formatObjectNameForOperationId obj.name
    tags := [obj.name]
    parameters := [idPathParameter obj.inflections.singular "retrieve"]
    requestBody := none
    responses :=
      [("200",
        { description := "The requested " ++ obj.inflections.singular
          schema := some (.ref ("#/components/schemas/" ++ obj.key)) }),
       ("401", generateUnauthorizedResponse),
       ("404", { description := "Record not found", schema := none })]
    security := [["apiKey", "apiKeyRest"]] }

/-- `generateCreateOperation`: create one record. -/
def generateCreateOperation (obj : KnackObject) : Operation :=
  { summary := "Create " ++ obj.inflections.singular
    description := "Creates a new " ++ obj.inflections.singular
    operationId := obj.key ++ "_create" ++ formatObjectNameForOperationId obj.name
    tags := [obj.name]
    parameters := []
    requestBody := some
      { description := obj.inflections.singular ++ " to create"
        required := true
        schemaRef := "#/components/schemas/" ++ obj.key }
    responses :=
      [("201",
        { description := "The created " ++ obj.inflections.singular
          schema := some (.ref ("#/components/schemas/" ++ obj.key)) }),
       ("400", { description := "Invalid input", schema := none }),
       ("401", generateUnauthorizedResponse)]
    security := [["apiKey", "apiKeyRest"]] }

/-- `generateUpdateOperation`: update one record by id. -/
def generateUpdateOperation (obj : KnackObject) : Operation :=
  { summary := "Update " ++ obj.inflections.singular
    description := "Updates an existing " ++ obj.inflections.singular
    operationId := obj.key ++ "_update" ++ formatObjectNameForOperationId obj.name
    tags := [obj.name]
    parameters := [idPathParameter obj.inflections.singular "update"]
    requestBody := some
      { description := "Updated " ++ obj.inflections.singular ++ " data"
        required := true
        schemaRef := "#/components/schemas/" ++ obj.key }
    responses :=
      [("200",
        { description := "The updated " ++ obj.inflections.singular
          schema := some (.ref ("#/components/schemas/" ++ obj.key)) }),
       ("400", { description := "Invalid input", schema := none }),
       ("401", generateUnauthorizedResponse),
       ("404", { description := "Record not found", schema := none })]
    security := [["apiKey", "apiKeyRest"]] }

/-- `generateDeleteOperation`: delete one record by id. -/
def generateDeleteOperation (obj : KnackObject) : Operation :=
  { summary := "Delete " ++ obj.inflections.singular
    description := "Deletes a " ++ obj.inflections.singular
    operationId := obj.key ++ "_delete" ++ formatObjectNameForOperationId obj.name
    tags := [obj.name]
    parameters := [idPathParameter obj.inflections.singular "delete"]
    requestBody := none
    responses :=
      [("204", { description := "Successfully deleted", schema := none }),
       ("401", generateUnauthorizedResponse),
       ("404", { description := "Record not found", schema := none })]
    security := [["apiKey", "apiKeyRest"]] }

/-- `generateListRecordsOperation`: list operation with a records operationId. -/
def generateListRecordsOperation (obj : KnackObject) : Operation :=
  { generateListOperation obj with
      operationId := obj.key ++ "_listRecords" ++ formatObjectNameForOperationId obj.name }

/-- `generateCreateRecordOperation`. -/
def generateCreateRecordOperation (obj : KnackObject) : Operation :=
  { generateCreateOperation obj with
      operationId := obj.key ++ "_createRecord" ++ formatObjectNameForOperationId obj.name }

/-- `generateGetRecordOperation`. -/
def generateGetRecordOperation (obj : KnackObject) : Operation :=
  { generateGetOperation obj with
      operationId := obj.key ++ "_getRecord" ++ formatObjectNameForOperationId obj.name }

/-- `generateUpdateRecordOperation`. -/
def generateUpdateRecordOperation (obj : KnackObject) : Operation :=
  { generateUpdateOperation obj with
      operationId := obj.key ++ "_updateRecord" ++ formatObjectNameForOperationId obj.name }

/-- `generateDeleteRecordOperation`. -/
def generateDeleteRecordOperation (obj : KnackObject) : Operation :=
  { generateDeleteOperation obj with
      operationId := obj.key ++ "_deleteRecord" ++ formatObjectNameForOperationId obj.name }

/-- `generatePathsForObject`: the structure path plus both record paths.  The
source assigns the same path key several times; successive assignments to one
key are combined into the final path item here. -/
def generatePathsForObject (obj : KnackObject) : List (String × PathItem) :=
  let basePath := "/objects/" ++ obj.key
  let recordsPath := basePath ++ "/records"
  [(basePath,
    { get := some (generateObjectSchemaOperation obj)
      put := none, post := none, delete := none }),
   (recordsPath,
    { get := some (generateListRecordsOperation obj)
      put := none
      post := some (generateCreateRecordOperation obj)
      delete := none }),
   (recordsPath ++ "/{id}",
    { get := some (generateGetRecordOperation obj)
      put := some (generateUpdateRecordOperation obj)
      post := none
      delete := some (generateDeleteRecordOperation obj) })]

/-- `generateObjectPaths`: merge the per-object paths over all objects. -/
def generateObjectPaths (schema : KnackSchema) : List (String × PathItem) :=
  schema.application.objects.foldl (fun acc obj =>
    (generatePathsForObject obj).foldl (fun acc p => upsert acc p.1 p.2) acc) []

/-! ### Spec-side definitions for refinement claims -/

/-- The HTTP method the view-paths generator chooses for a view: PUT for
update forms, POST for other forms, GET for everything else. -/
def viewMethod (view : KnackView) : String :=
  if view.type = "form" then
    (if view.action == some "update" then "put" else "post")
  else "get"

/-- The field resolver as the spec states it (§4.3): (1) direct match on the
source object's own fields; (2) otherwise find the connection-typed field
carrying a relationship target, resolve the target object, and look the key up
in that target's field list — one hop only; not-found otherwise. -/
def resolveFieldSpec (key : String) (src : KnackObject) (schema : KnackSchema) :
    Option KnackField :=
  match src.fields.find? (fun f => f.key == key) with
  | some f => some f
  | none => do
    let cf ← src.fields.find? (fun f =>
      f.type == "connection" &&
      (truthyStr (f.relationship.map (fun r => r.object))).isSome)
    let target ← truthyStr (cf.relationship.map (fun r => r.object))
    let tObj ← schema.application.objects.find? (fun o => o.key == target)
    tObj.fields.find? (fun f => f.key == key)

/-- A view with every optional part absent; fixture base. -/
def emptyView : KnackView :=
  { key := "", name := "", type := "", title := none, description := none
    source := none, allowed_profiles := none, limit_profile_access := none
    action := none, columns := none, groups := none, results := none }

/-- A scene with every optional part absent; fixture base. -/
def emptyScene : KnackScene :=
  { key := "", name := "", slug := "", parent := none, type := none
    allowed_profiles := none, limit_profile_access := none
    authenticated := none, views := [] }

/-- Details view encoding a key list in shape (a): group → column → field list. -/
def detailsShapeA (ks : List String) : KnackView :=
  { emptyView with
      type := "details"
      groups := some
        [{ columns := some
            [{ inputs := none
               fields := some (ks.map (fun k => { key := some k, field := none })) }] }] }

/-- Details view encoding the same key list in shape (b): column → group →
column-data, with the keys given as one array of fields. -/
def detailsShapeB (ks : List String) : KnackView :=
  { emptyView with
      type := "details"
      columns := some
        [{ type := "field"
           field := none
           groups := some
             [{ columns := some [KnackColumnData.arr (ks.map (fun k => { key := some k }))] }] }] }

/-! ### Concrete fixtures for witnesses and counterexamples -/

/-- A field whose type string is outside the recognized enumeration. -/
def fUnknown : KnackField :=
  { key := "field_9", name := "Mystery", type := "mystery", required := false
    format := none, relationship := none }

/-- The single required short-text field of the end-to-end example. -/
def field1 : KnackField :=
  { key := "field_1", name := "Project Name", type := "short_text", required := true
    format := none, relationship := none }

/-- The single object of the end-to-end example. -/
def obj1 : KnackObject :=
  { key := "object_1", name := "Projects"
    inflections := { singular := "Project", plural := "Projects" }
    fields := [field1] }

/-- The single table view of the end-to-end example, sourced on `object_1`. -/
def tableView1 : KnackView :=
  { emptyView with
      key := "view_1", name := "Records List", type := "table"
      source := some { object := some "object_1", authenticated_user := none }
      columns := some [{ type := "field", field := some { key := some "field_1" }, groups := none }] }

/-- The single scene of the end-to-end example. -/
def scene1 : KnackScene :=
  { emptyScene with key := "scene_1", name := "Home", slug := "home", views := [tableView1] }

/-- The end-to-end example application: one object, one scene, one table view. -/
def c7App : KnackSchema :=
  { application := { name := "Example", objects := [obj1], scenes := [scene1] } }

/-- A view whose source object reference resolves to no object. -/
def ghostView : KnackView :=
  { emptyView with
      key := "view_9", name := "Ghost List", type := "table"
      source := some { object := some "object_99", authenticated_user := none }
      columns := some [{ type := "field", field := some { key := some "field_1" }, groups := none }] }

/-- The scene containing the unresolved-source view. -/
def ghostScene : KnackScene :=
  { emptyScene with key := "scene_9", name := "Orphan", slug := "orphan", views := [ghostView] }

/-- Application whose only view references a missing object key. -/
def c3App : KnackSchema :=
  { application := { name := "Example", objects := [obj1], scenes := [ghostScene] } }

/-- Scene `a` of the decisive cycle: parent is scene `b`. -/
def cycSceneA : KnackScene :=
  { emptyScene with key := "scene_a", name := "Alpha", slug := "a", parent := some "b" }

/-- Scene `b` of the decisive cycle: parent is scene `a`, and its name matches
the security-keyword list. -/
def cycSceneB : KnackScene :=
  { emptyScene with key := "scene_b", name := "Admin Area", slug := "b", parent := some "a" }

/-- A malformed application whose parent-slug chain is the cycle a → b → a,
with a decisive scene inside the cycle. -/
def cycleSchema : KnackSchema :=
  { application := { name := "Cyc", objects := [], scenes := [cycSceneA, cycSceneB] } }

/-- Scene `a` of the flag-free cycle. -/
def pureCycSceneA : KnackScene :=
  { emptyScene with key := "scene_a", name := "Alpha", slug := "a", parent := some "b" }

/-- Scene `b` of the flag-free cycle. -/
def pureCycSceneB : KnackScene :=
  { emptyScene with key := "scene_b", name := "Beta", slug := "b", parent := some "a" }

/-- A malformed application whose parent-slug chain is a cycle and in which no
scene-level check is decisive. -/
def pureCycleSchema : KnackSchema :=
  { application := { name := "Cyc", objects := [], scenes := [pureCycSceneA, pureCycSceneB] } }

/-- A scene whose `parent` property is present but holds the empty string. -/
def sceneEmptyParent : KnackScene :=
  { emptyScene with key := "scene_e", name := "Edge", slug := "edge", parent := some "" }

/-- A child scene whose parent slug resolves to no scene. -/
def orphanChildScene : KnackScene :=
  { emptyScene with key := "scene_c", name := "Leaf", slug := "leaf", parent := some "area" }

/-- A schema with no scenes at all (nothing for parent slugs to resolve to). -/
def noScenesSchema : KnackSchema :=
  { application := { name := "Empty", objects := [], scenes := [] } }

/-- A login view. -/
def loginView : KnackView :=
  { emptyView with key := "view_l", name := "Sign In", type := "login" }

/-- A plain table view without security flags or keywords. -/
def plainTableView : KnackView :=
  { emptyView with
      key := "view_t", name := "Records", type := "table",
      source := some { object := some "object_1", authenticated_user := none } }

/-- A scene with the explicit authenticated flag set. -/
def authScene : KnackScene :=
  { emptyScene with
      key := "scene_z", name := "Zone", slug := "zone",
      authenticated := some true, views := [plainTableView] }

/-- A child-page scene with the explicit authenticated flag set, whose parent
slug resolves to no scene. -/
def authChildScene : KnackScene :=
  { emptyScene with
      key := "scene_k", name := "Zone", slug := "kid",
      parent := some "area", authenticated := some true, views := [plainTableView] }

/-- Application for the view-operation witness: one object, one authenticated
child scene holding a plain table view. -/
def c6App : KnackSchema :=
  { application := { name := "Example", objects := [obj1], scenes := [authChildScene] } }

/-! ### Shared helper lemmas -/

theorem truthyStr_eq_some {o : Option String} {k : String}
    (h : truthyStr o = some k) : o = some k ∧ k ≠ "" := by
  cases o with
  | none => simp [truthyStr] at h
  | some s =>
    by_cases hs : s = ""
    · simp [truthyStr, hs] at h
    · simp [truthyStr, hs] at h
      simp_all


theorem truthyStr_some_of_ne {k : String} (h : k ≠ "") :
    truthyStr (some k) = some k := by
  simp [truthyStr, h]

theorem append_id_ne_empty (p : String) : p ++ "_id" ≠ "" := by
  intro h
  have hlen := congrArg String.length h
  rw [String.length_append] at hlen
  have h1 : "_id".length = 3 := rfl
  have h2 : "".length = 0 := rfl
  omega

theorem getParentParamSlug_of_child (sc : KnackScene) (sch : KnackSchema)
    (h : isChildPage sc = true) :
    ∃ p, sc.parent = some p ∧ p ≠ "" ∧
      getParentParamSlug sc sch = some (p ++ "_id") := by
  unfold isChildPage at h
  cases hp : truthyStr sc.parent with
  | none => rw [hp] at h; simp at h
  | some p =>
    obtain ⟨hpar, hne⟩ := truthyStr_eq_some hp
    refine ⟨p, hpar, hne, ?_⟩
    unfold getParentParamSlug
    rw [if_neg (by simp [isChildPage, hp]), hpar]
    cases hf : sch.application.scenes.find? (fun s => s.slug == p) with
    | none => simp [hf]
    | some parentScene =>
      have hslug : parentScene.slug = p := by
        have := List.find?_some hf
        simpa using this
      cases hg : getSceneObjectKey parentScene <;> simp [hf, hg, hslug]

/-! ### C1: totality of the field type mapper -/

/-- C1: `mapFieldTypeToSchema` is total and always returns a schema whose
declared type is present and non-empty; for a field whose type string is
outside the recognized enumeration the result has type "string" and a
description flagging the unknown type, and the function never fails. -/
theorem c1_mapFieldType_total :
    ∀ f : KnackField,
      (∃ t, (mapFieldTypeToSchema f).type = some t ∧ t ≠ "") ∧
      (f.type ∉ recognizedFieldTypes →
        (mapFieldTypeToSchema f).type = some "string" ∧
        (mapFieldTypeToSchema f).description = "Unknown field type: " ++ f.type) := by
  intro f
  constructor
  · unfold mapFieldTypeToSchema
    split <;> (try split) <;> (try split) <;> exact ⟨_, rfl, by decide⟩
  · intro h
    simp only [recognizedFieldTypes, List.mem_cons, List.not_mem_nil, or_false,
      not_or] at h
    unfold mapFieldTypeToSchema
    split <;> simp_all

/-- C1 witness: the unknown-type fallback at a concrete field. -/
theorem c1_mapFieldType_total_witness :
    (mapFieldTypeToSchema fUnknown).type = some "string" ∧
    (mapFieldTypeToSchema fUnknown).description = "Unknown field type: " ++ fUnknown.type :=
  (c1_mapFieldType_total fUnknown).2 (by decide)

/-! ### C2: security classifier guarantees -/

theorem checkViewSecurity_login {v : KnackView} (h : v.type = "login") :
    checkViewSecurity v = some .public := by
  simp [checkViewSecurity, h]

theorem checkViewSecurity_not_public {v : KnackView}
    (h1 : v.type ≠ "login") (h2 : v.type ≠ "register")
    (h3 : v.type ≠ "password_reset") :
    checkViewSecurity v ≠ some .public := by
  unfold checkViewSecurity
  rw [if_neg (by tauto)]
  split_ifs <;> simp

theorem checkSceneSecurity_of_auth {sc : KnackScene}
    (h : sc.authenticated = some true) :
    checkSceneSecurity sc = some .authenticated := by
  simp [checkSceneSecurity, h]

/-- C2: `determineViewSecurity` is a function of its inputs, a login view is
always public regardless of any other flag, and a scene with the explicit
authenticated flag yields authenticated for every view that is not itself a
login-type view (login, register, password_reset). -/
theorem c2_determineViewSecurity_rules :
    ∀ (v : KnackView) (sc : KnackScene) (sch : KnackSchema),
      (v.type = "login" → determineViewSecurity v sc sch = .public) ∧
      (sc.authenticated = some true →
        v.type ≠ "login" → v.type ≠ "register" → v.type ≠ "password_reset" →
        determineViewSecurity v sc sch = .authenticated) := by
  intro v sc sch
  constructor
  · intro h
    unfold determineViewSecurity
    rw [checkViewSecurity_login h]
  · intro hauth h1 h2 h3
    unfold determineViewSecurity
    cases hcv : checkViewSecurity v with
    | none => rw [checkSceneSecurity_of_auth hauth]
    | some s =>
      cases s with
      | public => exact absurd hcv (checkViewSecurity_not_public h1 h2 h3)
      | authenticated => rfl

/-- C2 witness: the two rules at concrete inputs. -/
theorem c2_determineViewSecurity_rules_witness :
    determineViewSecurity loginView emptyScene noScenesSchema = .public ∧
    determineViewSecurity plainTableView authScene noScenesSchema = .authenticated :=
  ⟨(c2_determineViewSecurity_rules loginView emptyScene noScenesSchema).1 rfl,
   (c2_determineViewSecurity_rules plainTableView authScene noScenesSchema).2
     rfl (by decide) (by decide) (by decide)⟩

/-! ### C5: page-hierarchy resolver -/

/-- C5 counterexample: the claim says `isChildPage` returns false iff
`scene.parent` is absent or null; a scene whose `parent` is the empty string
is present yet `Boolean("")` is falsy, so `isChildPage` is false while
`scene.parent` is not absent. -/
theorem c5_isChildPage_counterexample :
    isChildPage sceneEmptyParent = false ∧ sceneEmptyParent.parent ≠ none := by
  constructor
  · decide
  · intro h
    simp [sceneEmptyParent, emptyScene] at h

/-- C5 amended: `isChildPage` returns false iff `scene.parent` is absent, null
or the empty string; and for every child page `getParentParamSlug` never fails
and returns the parent reference string followed by "_id" (which is also the
parent scene's slug followed by "_id" whenever the parent resolves, since the
lookup matches on the slug). -/
theorem c5_parentParam_amended :
    ∀ (sc : KnackScene) (sch : KnackSchema),
      ((isChildPage sc = false) ↔ (sc.parent = none ∨ sc.parent = some "")) ∧
      (isChildPage sc = true →
        ∃ p, sc.parent = some p ∧ p ≠ "" ∧
          getParentParamSlug sc sch = some (p ++ "_id")) := by
  intro sc sch
  constructor
  · cases hp : sc.parent with
    | none => simp [isChildPage, truthyStr, hp]
    | some s =>
      by_cases hs : s = "" <;> simp [isChildPage, truthyStr, hp, hs]
  · exact getParentParamSlug_of_child sc sch

/-- C5 witness: a child scene whose parent slug resolves to no scene still
gets a parameter name ending in "_id". -/
theorem c5_parentParam_amended_witness :
    isChildPage orphanChildScene = true ∧
    (∃ p, orphanChildScene.parent = some p ∧ p ≠ "" ∧
      getParentParamSlug orphanChildScene noScenesSchema = some (p ++ "_id")) :=
  ⟨by decide,
   (c5_parentParam_amended orphanChildScene noScenesSchema).2 (by decide)⟩

/-! ### C8: field resolver lookup order -/

/-- C8: `findFieldByKey` equals the spec's lookup order — direct match on the
source object's own fields first, otherwise a single hop through the
connection-typed field carrying a relationship target into that target's field
list, and not-found (rather than failure) when neither yields a match. -/
theorem c8_findFieldByKey_order :
    ∀ (k : String) (src : KnackObject) (sch : KnackSchema),
      findFieldByKey k src sch = resolveFieldSpec k src sch := by
  intro k src sch
  unfold findFieldByKey resolveFieldSpec
  cases src.fields.find? (fun f => f.key == k) with
  | some f => rfl
  | none =>
    simp only
    cases src.fields.find? (fun f =>
        f.type == "connection" &&
        (truthyStr (f.relationship.map (fun r => r.object))).isSome) with
    | none => rfl
    | some cf =>
      simp only [Option.bind_eq_bind, Option.some_bind]
      cases truthyStr (cf.relationship.map (fun r => r.object)) with
      | none => rfl
      | some target =>
        simp only [Option.some_bind]
        cases sch.application.objects.find? (fun o => o.key == target) with
        | none => rfl
        | some tObj =>
          simp only [Option.some_bind]
          cases tObj.fields.find? (fun f => f.key == k) <;> rfl

/-! ### C9: the two details-view shapes agree -/

theorem detailsShapeA_extract (ks : List String) :
    extractFieldKeysFromView (detailsShapeA ks) =
      ks.foldl (fun acc k => addTruthy acc (some k)) [] := by
  simp [extractFieldKeysFromView, detailsShapeA, emptyView, List.foldl_map]

theorem detailsShapeB_extract (ks : List String) :
    extractFieldKeysFromView (detailsShapeB ks) =
      ks.foldl (fun acc k => addTruthy acc (some k)) [] := by
  simp [extractFieldKeysFromView, detailsShapeB, emptyView, List.foldl_map]

/-- C9: for any logical list of field keys, the group→column→field-list shape
and the column→group→column-data shape of a details view extract the same set
of keys. -/
theorem c9_detailsShapes_agree :
    ∀ (ks : List String) (k : String),
      k ∈ extractFieldKeysFromView (detailsShapeA ks) ↔
      k ∈ extractFieldKeysFromView (detailsShapeB ks) := by
  intro ks k
  rw [detailsShapeA_extract, detailsShapeB_extract]

/-! ### C3: unresolved view source objects -/

/-- C3 counterexample: an application whose only view references the missing
object key "object_99".  Schema-component generation skips the view, but —
contrary to the claim — path generation still emits a path entry for it. -/
theorem c3_unresolvedSource_counterexample :
    (∀ o ∈ c3App.application.objects, o.key ≠ "object_99") ∧
    (generateViewComponents c3App).schemas = [] ∧
    lookupKey (generateViewPaths c3App) "/scenes/scene_9/views/view_9/records" ≠ none := by
  refine ⟨by decide, by decide, ?_⟩
  intro h
  have : (lookupKey (generateViewPaths c3App)
      "/scenes/scene_9/views/view_9/records").isSome = true := by decide
  rw [h] at this
  simp at this

/-- C3 amended: a view whose source-object reference does not resolve is
skipped by schema-component generation (`generateViewSchema` yields nothing),
and generation is not aborted — but path generation still emits the view's
path entry (with a fallback tag). -/
theorem c3_unresolvedSource_amended :
    ∀ (v : KnackView) (sc : KnackScene) (sch : KnackSchema) (k : String),
      viewSourceObject v = some k →
      sch.application.objects.find? (fun o => o.key == k) = none →
      generateViewSchema v sc sch = none ∧
      generatePathsForView v sc sch ≠ [] := by
  intro v sc sch k hsrc hfind
  have hbind : v.source.bind (fun s => s.object) = some k :=
    (truthyStr_eq_some hsrc).1
  constructor
  · unfold generateViewSchema
    rw [hbind]
    simp [hfind]
  · unfold generatePathsForView
    rw [hsrc]
    by_cases hform : v.type = "form" <;>
      by_cases hact : v.action == some "update" <;>
        simp [hform, hact]

/-- C3 witness: the amended behaviour at the concrete unresolved-source view. -/
theorem c3_unresolvedSource_amended_witness :
    generateViewSchema ghostView ghostScene c3App = none ∧
    generatePathsForView ghostView ghostScene c3App ≠ [] :=
  c3_unresolvedSource_amended ghostView ghostScene c3App "object_99"
    (by decide) (by decide)

/-! ### C10: no schema carries an empty required list -/

theorem ifLen_ne_some_nil {l : List String}
    (h : (if l.length = 0 then (none : Option (List String)) else some l) = some []) :
    False := by
  cases l <;> simp at h

theorem mem_upsert {α : Type} {m : List (String × α)} {k : String} {v : α} :
    ∀ p ∈ upsert m k v, p = (k, v) ∨ p ∈ m := by
  induction m with
  | nil =>
    intro p hp
    simp [upsert] at hp
    left
    exact hp
  | cons a t ih =>
    obtain ⟨k', v'⟩ := a
    intro p hp
    simp only [upsert] at hp
    by_cases hk : k' = k
    · rw [if_pos hk] at hp
      rcases List.mem_cons.mp hp with h | h
      · left; exact h
      · right; exact List.mem_cons_of_mem _ h
    · rw [if_neg hk] at hp
      rcases List.mem_cons.mp hp with h | h
      · right; rw [h]; exact List.mem_cons_self _ _
      · rcases ih p h with h1 | h1
        · left; exact h1
        · right; exact List.mem_cons_of_mem _ h1

theorem foldl_preserve {α β : Type} (P : β → Prop) (f : List β → α → List β)
    (hf : ∀ acc a, (∀ x ∈ acc, P x) → ∀ x ∈ f acc a, P x) :
    ∀ (l : List α) (acc : List β), (∀ x ∈ acc, P x) → ∀ x ∈ l.foldl f acc, P x := by
  intro l
  induction l with
  | nil =>
    intro acc h
    simpa using h
  | cons a t ih =>
    intro acc h
    simpa using ih (f acc a) (hf acc a h)

theorem objectToSchema_required_ne (obj : KnackObject) :
    (objectToSchema obj).2.required ≠ some [] := by
  intro h
  exact ifLen_ne_some_nil h

theorem generateViewSchema_required_ne {v : KnackView} {sc : KnackScene}
    {sch : KnackSchema} {s : ObjSchema}
    (h : generateViewSchema v sc sch = some s) : s.required ≠ some [] := by
  unfold generateViewSchema at h
  split at h
  · exact absurd h (by simp)
  · split at h
    · exact absurd h (by simp)
    · dsimp only at h
      split at h
      · exact absurd h (by simp)
      · split at h
        · exact absurd h (by simp)
        · injection h with h2
          subst h2
          intro hreq
          exact ifLen_ne_some_nil hreq

/-- C10: every object component schema and every view component schema in the
output has either a non-empty required list or no required key at all; an
empty required array is never emitted, for every input application. -/
theorem c10_required_never_empty :
    ∀ sch : KnackSchema,
      (∀ ns ∈ (generateComponents sch).schemas, ns.2.required ≠ some []) ∧
      (∀ ns ∈ (generateViewComponents sch).schemas, ns.2.required ≠ some []) := by
  intro sch
  constructor
  · refine foldl_preserve _ _ ?_ sch.application.objects [] (by simp)
    intro acc obj hacc x hx
    rcases mem_upsert x hx with h | h
    · rw [h]
      exact objectToSchema_required_ne obj
    · exact hacc x h
  · refine foldl_preserve _ _ ?_ sch.application.scenes [] (by simp)
    intro acc scene hacc
    refine foldl_preserve _ _ ?_ scene.views acc hacc
    intro acc2 view hacc2 x hx
    rcases hsrc : viewSourceObject view with _ | k
    · rw [hsrc] at hx
      exact hacc2 x hx
    · rw [hsrc] at hx
      rcases hvs : generateViewSchema view scene sch with _ | vs
      · rw [hvs] at hx
        exact hacc2 x hx
      · rw [hvs] at hx
        rcases mem_upsert x hx with h | h
        · rw [h]
          exact generateViewSchema_required_ne hvs
        · exact hacc2 x h

/-- C10 witness: the invariant applied to concrete members of both schema
maps of the end-to-end example application. -/
theorem c10_required_never_empty_witness :
    ((("object_1", (objectToSchema obj1).2) ∈ (generateComponents c7App).schemas) ∧
      (objectToSchema obj1).2.required ≠ some []) ∧
    ((("view_home_view_1",
        ({ type := "object", title := "Records List in Home",
           description := "Schema for Records List view in Home",
           properties := [("field_1", mapFieldTypeToSchema field1)],
           required := some ["field_1"] } : ObjSchema)) ∈
        (generateViewComponents c7App).schemas) ∧
      ({ type := "object", title := "Records List in Home",
         description := "Schema for Records List view in Home",
         properties := [("field_1", mapFieldTypeToSchema field1)],
         required := some ["field_1"] } : ObjSchema).required ≠ some []) :=
  ⟨⟨by decide,
    (c10_required_never_empty c7App).1 ("object_1", (objectToSchema obj1).2) (by decide)⟩,
   ⟨by decide,
    (c10_required_never_empty c7App).2
      ("view_home_view_1",
       { type := "object", title := "Records List in Home",
         description := "Schema for Records List view in Home",
         properties := [("field_1", mapFieldTypeToSchema field1)],
         required := some ["field_1"] }) (by decide)⟩⟩

/-! ### C4: the ancestor-security walk -/

theorem length_filter_mono {α : Type} (q q' : α → Bool)
    (himp : ∀ x, q' x = true → q x = true) :
    ∀ l : List α, (l.filter q').length ≤ (l.filter q).length := by
  intro l
  induction l with
  | nil => simp
  | cons a t ih =>
    by_cases hq' : q' a = true
    · simp only [List.filter_cons, hq', himp a hq', if_true, List.length_cons]
      omega
    · have hq'f : q' a = false := by simpa using hq'
      simp only [List.filter_cons, hq'f, Bool.false_eq_true, if_false]
      cases hq : q a with
      | true =>
        simp only [if_true, List.length_cons]
        omega
      | false => simpa using ih

theorem filter_visited_lt (slugs : List String) (visited : List String)
    (p : String) (hmem : p ∈ slugs) (hnv : visited.contains p = false) :
    (slugs.filter (fun x => !((p :: visited).contains x))).length <
    (slugs.filter (fun x => !(visited.contains x))).length := by
  induction slugs with
  | nil => simp at hmem
  | cons a t ih =>
    simp only [List.filter_cons]
    by_cases hap : a = p
    · subst hap
      have hq' : (!((a :: visited).contains a)) = false := by
        rw [List.contains_cons, beq_self_eq_true, Bool.true_or, Bool.not_true]
      have hq : (!(visited.contains a)) = true := by
        rw [hnv, Bool.not_false]
      rw [hq', hq]
      simp only [Bool.false_eq_true, if_false, if_true, List.length_cons]
      have hmono := length_filter_mono
        (fun x => !(visited.contains x))
        (fun x => !((a :: visited).contains x))
        (fun x hx => by
          have hx' : (!((a :: visited).contains x)) = true := hx
          rw [List.contains_cons] at hx'
          simp only [Bool.not_eq_true', Bool.or_eq_false_iff] at hx'
          show (!(visited.contains x)) = true
          simp only [Bool.not_eq_true', hx'.2]) t
      omega
    · have hpa : (a == p) = false := by
        simpa using hap
      have hceq : ((p :: visited).contains a) = visited.contains a := by
        rw [List.contains_cons, hpa, Bool.false_or]
      have hmem' : p ∈ t := by
        rcases List.mem_cons.mp hmem with h | h
        · exact absurd h.symm hap
        · exact h
      rw [hceq]
      cases hva : visited.contains a with
      | true =>
        simp only [Bool.not_true, Bool.false_eq_true, if_false]
        exact ih hmem'
      | false =>
        simp only [Bool.not_false, if_true, List.length_cons]
        have := ih hmem'
        omega

theorem checkParentScenesSecurityAux_agree (sch : KnackSchema) :
    ∀ (n₁ n₂ : Nat) (sc : KnackScene) (visited : List String),
      ((sch.application.scenes.map (fun s => s.slug)).filter
        (fun x => !(visited.contains x))).length < n₁ →
      ((sch.application.scenes.map (fun s => s.slug)).filter
        (fun x => !(visited.contains x))).length < n₂ →
      checkParentScenesSecurityAux n₁ sc sch visited =
      checkParentScenesSecurityAux n₂ sc sch visited := by
  intro n₁
  induction n₁ with
  | zero =>
    intro n₂ sc visited h1 h2
    omega
  | succ m ih =>
    intro n₂ sc visited h1 h2
    cases n₂ with
    | zero => omega
    | succ m2 =>
      unfold checkParentScenesSecurityAux
      cases hp : truthyStr sc.parent with
      | none => rfl
      | some p =>
        simp only
        split
        · rfl
        · rename_i hnotmem
          have hvf : visited.contains p = false := by simpa using hnotmem
          cases hf : sch.application.scenes.find? (fun s => s.slug == p) with
          | none => rfl
          | some parentScene =>
            simp only
            cases hcs : checkSceneSecurity parentScene with
            | some sec => rfl
            | none =>
              have hslug : parentScene.slug = p := by
                have := List.find?_some hf
                simpa using this
              have hmem : parentScene ∈ sch.application.scenes :=
                List.mem_of_find?_eq_some hf
              have hpslugs : p ∈ sch.application.scenes.map (fun s => s.slug) :=
                List.mem_map.mpr ⟨parentScene, hmem, hslug⟩
              have hlt := filter_visited_lt
                (sch.application.scenes.map (fun s => s.slug)) visited p hpslugs hvf
              exact ih m2 parentScene (p :: visited) (by omega) (by omega)

theorem checkParentScenesSecurityAux_none (sch : KnackSchema)
    (hall : ∀ s ∈ sch.application.scenes, checkSceneSecurity s = none) :
    ∀ (fuel : Nat) (sc : KnackScene) (visited : List String),
      checkParentScenesSecurityAux fuel sc sch visited = none := by
  intro fuel
  induction fuel with
  | zero =>
    intro sc visited
    rfl
  | succ m ih =>
    intro sc visited
    unfold checkParentScenesSecurityAux
    cases hp : truthyStr sc.parent with
    | none => rfl
    | some p =>
      simp only
      split
      · rfl
      · cases hf : sch.application.scenes.find? (fun s => s.slug == p) with
        | none => rfl
        | some parentScene =>
          simp only
          rw [hall parentScene (List.mem_of_find?_eq_some hf)]
          exact ih parentScene (p :: visited)

/-- C4 counterexample: on the malformed cycle a → b → a where scene `b`'s own
scene-level check is decisive, the walk terminates but returns a verdict, not
the no-verdict result the claim states for every cyclic application. -/
theorem c4_parentWalk_counterexample :
    cycSceneA.parent = some cycSceneB.slug ∧
    cycSceneB.parent = some cycSceneA.slug ∧
    checkParentScenesSecurity cycSceneA cycleSchema = some .authenticated :=
  ⟨by decide, by decide, by decide⟩

/-- C4 amended: the visited-set walk terminates for every input — its result
is unchanged by any fuel beyond the scene count — and when no scene-level
check is decisive (in particular on a pure parent cycle) it returns no
verdict; an ancestor inside a cycle whose scene-level check is decisive still
yields that verdict. -/
theorem c4_parentWalk_amended :
    ∀ (sch : KnackSchema) (sc : KnackScene) (fuel : Nat),
      (sch.application.scenes.length < fuel →
        checkParentScenesSecurityAux fuel sc sch [] =
          checkParentScenesSecurity sc sch) ∧
      ((∀ s ∈ sch.application.scenes, checkSceneSecurity s = none) →
        checkParentScenesSecurity sc sch = none) := by
  intro sch sc fuel
  constructor
  · intro hfuel
    unfold checkParentScenesSecurity
    have hfull : ((sch.application.scenes.map (fun s => s.slug)).filter
        (fun x => !(([] : List String).contains x))).length =
        sch.application.scenes.length := by
      simp
    apply checkParentScenesSecurityAux_agree <;> omega
  · intro hall
    unfold checkParentScenesSecurity
    exact checkParentScenesSecurityAux_none sch hall _ sc []

/-- C4 witness: on the flag-free cycle the walk is fuel-stable and returns no
verdict. -/
theorem c4_parentWalk_amended_witness :
    checkParentScenesSecurityAux 7 pureCycSceneA pureCycleSchema [] =
      checkParentScenesSecurity pureCycSceneA pureCycleSchema ∧
    checkParentScenesSecurity pureCycSceneA pureCycleSchema = none :=
  ⟨(c4_parentWalk_amended pureCycleSchema pureCycSceneA 7).1 (by decide),
   (c4_parentWalk_amended pureCycleSchema pureCycSceneA 7).2 (by decide)⟩

/-! ### C6: shape of generated view operations -/

theorem mem_parentParamList {slug sceneName : String} (hne : slug ≠ "") :
    createParentIdParameter slug sceneName ∈ parentParamList true (some slug) sceneName := by
  simp [parentParamList, truthyStr_some_of_ne hne]

theorem viewGetOp_params (v : KnackView) (sc : KnackScene) (sch : KnackSchema)
    (sec : ViewSecurity) (ref : String) (icp : Bool) (pps : Option String) :
    (generateViewGetOperation v sc sch sec ref icp pps).parameters =
      parentParamList icp pps sc.name ++
        (if v.type = "details" then []
         else [.ref "#/components/parameters/page",
               .ref "#/components/parameters/rowsPerPage"]) := by
  cases sec <;> simp [generateViewGetOperation]

theorem viewPostOp_params (v : KnackView) (sc : KnackScene) (sch : KnackSchema)
    (sec : ViewSecurity) (ref : String) (icp : Bool) (pps : Option String) :
    (generateViewPostOperation v sc sch sec ref icp pps).parameters =
      parentParamList icp pps sc.name := by
  cases sec <;> simp [generateViewPostOperation]

theorem viewPutOp_params (v : KnackView) (sc : KnackScene) (sch : KnackSchema)
    (sec : ViewSecurity) (ref : String) (icp : Bool) (pps : Option String) :
    (generateViewPutOperation v sc sch sec ref icp pps).parameters =
      parentParamList icp pps sc.name := by
  cases sec <;> simp [generateViewPutOperation]

theorem viewGetOp_security (v : KnackView) (sc : KnackScene) (sch : KnackSchema)
    (sec : ViewSecurity) (ref : String) (icp : Bool) (pps : Option String) :
    (generateViewGetOperation v sc sch sec ref icp pps).security =
      (if sec = .authenticated then [["apiKey", "viewAuth"]] else [["apiKey"]]) := by
  cases sec <;> simp [generateViewGetOperation]

theorem viewPostOp_security (v : KnackView) (sc : KnackScene) (sch : KnackSchema)
    (sec : ViewSecurity) (ref : String) (icp : Bool) (pps : Option String) :
    (generateViewPostOperation v sc sch sec ref icp pps).security =
      (if sec = .authenticated then [["apiKey", "viewAuth"]] else [["apiKey"]]) := by
  cases sec <;> simp [generateViewPostOperation]

theorem viewPutOp_security (v : KnackView) (sc : KnackScene) (sch : KnackSchema)
    (sec : ViewSecurity) (ref : String) (icp : Bool) (pps : Option String) :
    (generateViewPutOperation v sc sch sec ref icp pps).security =
      (if sec = .authenticated then [["apiKey", "viewAuth"]] else [["apiKey"]]) := by
  cases sec <;> simp [generateViewPutOperation]

theorem viewGetOp_401 (v : KnackView) (sc : KnackScene) (sch : KnackSchema)
    (ref : String) (icp : Bool) (pps : Option String) :
    lookupKey (generateViewGetOperation v sc sch .authenticated ref icp pps).responses
      "401" ≠ none := by
  simp [generateViewGetOperation, lookupKey, List.find?]

theorem viewPostOp_401 (v : KnackView) (sc : KnackScene) (sch : KnackSchema)
    (ref : String) (icp : Bool) (pps : Option String) :
    lookupKey (generateViewPostOperation v sc sch .authenticated ref icp pps).responses
      "401" ≠ none := by
  simp [generateViewPostOperation, lookupKey, List.find?]

theorem viewPutOp_401 (v : KnackView) (sc : KnackScene) (sch : KnackSchema)
    (ref : String) (icp : Bool) (pps : Option String) :
    lookupKey (generateViewPutOperation v sc sch .authenticated ref icp pps).responses
      "401" ≠ none := by
  simp [generateViewPutOperation, lookupKey, List.find?]

/-- C6: for every view with a truthy source-object reference, path generation
emits exactly one path entry carrying exactly one operation — PUT for update
forms, POST for other forms, GET otherwise (`viewMethod`).  The operation
always carries the application-id scheme, adds the bearer scheme and a 401
stub exactly when the view is classified authenticated, and includes the
required parent query parameter when the view sits in a child page. -/
theorem c6_viewOperation_shape :
    ∀ (v : KnackView) (sc : KnackScene) (sch : KnackSchema),
      viewSourceObject v ≠ none →
      ∃ op : Operation,
        generatePathsForView v sc sch =
          [("/scenes/" ++ sc.key ++ "/views/" ++ v.key ++ "/records",
            singletonItem (viewMethod v) op)] ∧
        op.security =
          (if determineViewSecurity v sc sch = .authenticated
           then [["apiKey", "viewAuth"]] else [["apiKey"]]) ∧
        (determineViewSecurity v sc sch = .authenticated →
          lookupKey op.responses "401" ≠ none) ∧
        (∀ slug, isChildPage sc = true → getParentParamSlug sc sch = some slug →
          createParentIdParameter slug sc.name ∈ op.parameters) := by
  intro v sc sch h
  cases hsrc : viewSourceObject v with
  | none => exact absurd hsrc h
  | some k =>
    have hslugne : ∀ slug, isChildPage sc = true →
        getParentParamSlug sc sch = some slug → slug ≠ "" := by
      intro slug hchild hslug
      obtain ⟨p, _, _, hval⟩ := getParentParamSlug_of_child sc sch hchild
      rw [hval] at hslug
      injection hslug with hs
      rw [← hs]
      exact append_id_ne_empty p
    have hpps : ∀ slug, isChildPage sc = true →
        getParentParamSlug sc sch = some slug →
        createParentIdParameter slug sc.name ∈
          parentParamList (isViewInChildPage v sc)
            (if isViewInChildPage v sc then getParentParamSlug sc sch else none)
            sc.name := by
      intro slug hchild hslug
      have hicp : isViewInChildPage v sc = true := hchild
      rw [hicp, if_pos rfl, hslug]
      exact mem_parentParamList (hslugne slug hchild hslug)
    unfold generatePathsForView
    rw [hsrc]
    by_cases hform : v.type = "form"
    · by_cases hact : (v.action == some "update") = true
      · refine ⟨generateViewPutOperation v sc sch (determineViewSecurity v sc sch)
          ("#/components/schemas/view_" ++ sc.slug ++ "_" ++ v.key)
          (isViewInChildPage v sc)
          (if isViewInChildPage v sc then getParentParamSlug sc sch else none),
          ?_, ?_, ?_, ?_⟩
        · simp [hform, hact, viewMethod]
        · exact viewPutOp_security v sc sch _ _ _ _
        · intro hauth
          rw [hauth]
          exact viewPutOp_401 v sc sch _ _ _
        · intro slug hchild hslug
          rw [viewPutOp_params]
          exact hpps slug hchild hslug
      · refine ⟨generateViewPostOperation v sc sch (determineViewSecurity v sc sch)
          ("#/components/schemas/view_" ++ sc.slug ++ "_" ++ v.key)
          (isViewInChildPage v sc)
          (if isViewInChildPage v sc then getParentParamSlug sc sch else none),
          ?_, ?_, ?_, ?_⟩
        · simp [hform, hact, viewMethod]
        · exact viewPostOp_security v sc sch _ _ _ _
        · intro hauth
          rw [hauth]
          exact viewPostOp_401 v sc sch _ _ _
        · intro slug hchild hslug
          rw [viewPostOp_params]
          exact hpps slug hchild hslug
    · refine ⟨generateViewGetOperation v sc sch (determineViewSecurity v sc sch)
        ("#/components/schemas/view_" ++ sc.slug ++ "_" ++ v.key)
        (isViewInChildPage v sc)
        (if isViewInChildPage v sc then getParentParamSlug sc sch else none),
        ?_, ?_, ?_, ?_⟩
      · simp [hform, viewMethod]
      · exact viewGetOp_security v sc sch _ _ _ _
      · intro hauth
        rw [hauth]
        exact viewGetOp_401 v sc sch _ _ _
      · intro slug hchild hslug
        rw [viewGetOp_params]
        exact List.mem_append_left _ (hpps slug hchild hslug)

/-- C6 witness: the operation shape at a concrete authenticated child-page
table view whose parent slug does not resolve. -/
theorem c6_viewOperation_shape_witness :
    ∃ op : Operation,
      generatePathsForView plainTableView authChildScene c6App =
        [("/scenes/" ++ authChildScene.key ++ "/views/" ++ plainTableView.key ++ "/records",
          singletonItem (viewMethod plainTableView) op)] ∧
      op.security =
        (if determineViewSecurity plainTableView authChildScene c6App = .authenticated
         then [["apiKey", "viewAuth"]] else [["apiKey"]]) ∧
      (determineViewSecurity plainTableView authChildScene c6App = .authenticated →
        lookupKey op.responses "401" ≠ none) ∧
      (∀ slug, isChildPage authChildScene = true →
        getParentParamSlug authChildScene c6App = some slug →
        createParentIdParameter slug authChildScene.name ∈ op.parameters) :=
  c6_viewOperation_shape plainTableView authChildScene c6App (by decide)

/-! ### C7: end-to-end example -/

/-- C7: for the application with one object `object_1` (required short_text
field `field_1`) and one scene with a single table view sourced on `object_1`,
the generated paths include `/objects/object_1` (GET), `/objects/object_1/records`
(GET and POST), `/objects/object_1/records/{id}` (GET, PUT and DELETE) and the
view records path, and the component schemas include an `object_1` schema whose
property `field_1` has type string and whose required list contains `field_1`. -/
theorem c7_endToEnd_example :
    ((lookupKey (generateObjectPaths c7App) "/objects/object_1").map
      (fun i => i.get.isSome) = some true) ∧
    ((lookupKey (generateObjectPaths c7App) "/objects/object_1/records").map
      (fun i => i.get.isSome && i.post.isSome) = some true) ∧
    ((lookupKey (generateObjectPaths c7App) "/objects/object_1/records/{id}").map
      (fun i => i.get.isSome && i.put.isSome && i.delete.isSome) = some true) ∧
    ((lookupKey (generateViewPaths c7App) "/scenes/scene_1/views/view_1/records").map
      (fun i => i.get.isSome) = some true) ∧
    ((do
        let s ← lookupKey (generateComponents c7App).schemas "object_1"
        let p ← lookupKey s.properties "field_1"
        p.type) = some "string") ∧
    ((lookupKey (generateComponents c7App).schemas "object_1").map
      (fun s => (s.required.getD []).contains "field_1") = some true) := by
  refine ⟨?_, ?_, ?_, ?_, ?_, ?_⟩ <;> decide
